import Mathlib

set_option maxRecDepth 8000

/-!
Shallow embedding of the CHIP-8 interpreter in `src/chip8/mod.rs` and
`src/chip8/keypad.rs` (repository ccldd/chip8).

Conventions of the embedding:
* machine integers are `Nat` with explicit `% 256` / `% 65536` truncation where the
  Rust code wraps (`wrapping_add`, `as u8`);
* Rust debug-profile arithmetic overflow/underflow and out-of-bounds array indexing
  abort the program; fallible steps therefore return `Option` and an abort is `none`;
* the fixed-size Rust arrays (`[u8; 4096]`, `[u8; 16]`, `[u16; 16]`, the 64×32
  display) are lists; their lengths, guaranteed in Rust by the types, appear as
  hypotheses of the theorems that need them;
* Rust parses `instruction & 0x0F00 >> 8` as `instruction & (0x0F00 >> 8)` because
  `>>` binds tighter than `&`; the translation keeps exactly that parse (with the
  parentheses made explicit), as in the source;
* `rand::random::<u8>()` (only used by opcode `Cxnn`) is passed in as an explicit
  `rand` argument.
-/

/-- State of one keypad key (`KeyState` in src/chip8/keypad.rs). -/
inductive KeyState where
  | Down
  | Up
deriving DecidableEq

/-- The keypad (`Keypad` in src/chip8/keypad.rs, used as `KeyPad` by mod.rs): the
per-key up/down map (keyed by the key's 4-bit value) and the queue of keys released
(Down→Up) since the last clearing. -/
structure KeyPad where
  keys : List KeyState
  keys_released : List Nat
deriving DecidableEq

/-- `Keypad::new`: every key starts Up, the release queue empty. -/
def KeyPad.new : KeyPad :=
  { keys := List.replicate 16 KeyState.Up, keys_released := [] }

/-- `Keypad::set_key_state`: record the new state; a Down→Up transition appends the
key to the release queue. -/
def KeyPad.set_key_state (k : KeyPad) (key : Nat) (st : KeyState) : KeyPad :=
  let old := k.keys.getD key KeyState.Up
  { keys := k.keys.set key st,
    keys_released :=
      if old = KeyState.Down ∧ st = KeyState.Up then k.keys_released ++ [key]
      else k.keys_released }

/-- `Keypad::get_first_key_released`: `self.keys_released.first().copied()`. -/
def KeyPad.get_first_key_released (k : KeyPad) : Option Nat :=
  k.keys_released.head?

/-- `Keypad::clear_keys_released`. -/
def KeyPad.clear_keys_released (k : KeyPad) : KeyPad :=
  { k with keys_released := [] }

/-- `Keypad::is_key_down`. -/
def KeyPad.is_key_down (k : KeyPad) (key : Nat) : Bool :=
  decide (k.keys.getD key KeyState.Up = KeyState.Down)

/-- The `num_enum` conversion `u8 → Key` in keypad.rs: values 0x0..0xF map to
themselves, anything else to the declared default `Key0`. -/
def keyOfByte (b : Nat) : Nat :=
  if b < 16 then b else 0

/-- Modelled from the spec: `KeyPad::is_pressed` is called by `Chip8::execute`
(Ex9E/ExA1) but its definition is not under src/; spec §4.1/§4.2 say SKP/SKNP test
whether "key Vx is down / up" via the simple state lookups. -/
def KeyPad.is_pressed (k : KeyPad) (key : Nat) : Bool :=
  k.is_key_down key

/-- Modelled from the spec: the `display` module is not under src/; spec §2/§3 fix a
64×32 framebuffer, matching the loop bounds of CLS and the `Chip8.display` field
type in mod.rs. -/
def WIDTH : Nat := 64

/-- Modelled from the spec: display height, see `WIDTH`. -/
def HEIGHT : Nat := 32

/-- Modelled from the spec: the `font` module is not under src/; spec §4.3 says the
font table holds 16 five-byte sprites in a fixed low-memory region and
`get_sprite_addr(digit)` returns the base address of the digit's sprite; the base of
the region is taken to be 0x000. -/
def get_sprite_addr (sprite : Nat) : Nat :=
  5 * sprite

/-- The machine state (`Chip8` in src/chip8/mod.rs). `display` is indexed as
`display[x][y]`: a list of `WIDTH` columns, each of `HEIGHT` pixel bytes. -/
structure Chip8 where
  memory : List Nat
  display : List (List Nat)
  pc : Nat
  I : Nat
  stack : List Nat
  sp : Nat
  delay_timer : Nat
  sound_timer : Nat
  V : List Nat
  keypad : KeyPad
deriving DecidableEq

/-- Pixel read `display[x][y]`. -/
def getPix (d : List (List Nat)) (x y : Nat) : Nat :=
  (d.getD x []).getD y 0

/-- Pixel write `display[x][y] = v`. -/
def setPix (d : List (List Nat)) (x y : Nat) (v : Nat) : List (List Nat) :=
  d.set x ((d.getD x []).set y v)

/-- The CLS loop: `for y in 0..32 { for x in 0..64 { display[x][y] = 0 } }`. -/
def clearDisplay (d : List (List Nat)) : List (List Nat) :=
  (List.range 32).foldl
    (fun d y => (List.range 64).foldl (fun d x => setPix d x y 0) d) d

/-- Truncation to `u8` (`as u8` on a sum). -/
def wrap8 (n : Nat) : Nat := n % 256

/-- `u8::wrapping_sub` on byte values. -/
def wrappingSub8 (a b : Nat) : Nat := (a + 256 - b) % 256

/-- `pc += 2` on the `u16` program counter; a debug-profile overflow aborts. -/
def pcSkip (s : Chip8) : Option Chip8 :=
  if s.pc + 2 > 0xFFFF then none else some { s with pc := s.pc + 2 }

/-- A checked Rust array read `l[i]`: `none` models the out-of-bounds abort. -/
def memRead (l : List Nat) (i : Nat) : Option Nat :=
  l.get? i

/-- A checked Rust array write `l[i] = v`: `none` models the out-of-bounds abort. -/
def memWrite (l : List Nat) (i v : Nat) : Option (List Nat) :=
  (l.get? i).map (fun _ => l.set i v)

/-- The Fx55 loop `for i in 0..=x { memory[I + i] = V[i] }`, one checked write per
iteration; the argument list carries the remaining `i` values. -/
def writeLoop (I : Nat) (V : List Nat) : List Nat → List Nat → Option (List Nat)
  | mem, [] => some mem
  | mem, i :: is => (memWrite mem (I + i) (V.getD i 0)).bind
      (fun m1 => writeLoop I V m1 is)

/-- The Fx65 loop `for i in 0..=x { V[i] = memory[I + i] }`, one checked read per
iteration. -/
def readLoop (mem : List Nat) (I : Nat) : List Nat → List Nat → Option (List Nat)
  | V, [] => some V
  | V, i :: is => (memRead mem (I + i)).bind
      (fun b => readLoop mem I (V.set i b) is)

/-- The `0x8000` arm of `Chip8::execute`. Note both operand indices: Rust parses
`instruction & 0x0F00 >> 8` as `instruction & (0x0F00 >> 8)` and
`instruction & 0x00F0 >> 4` as `instruction & (0x00F0 >> 4)`, i.e. both mask with
0xF. After the inner match (including its unknown-instruction default arm) the
source unconditionally runs the trailing `self.V[x] = self.V[y]` (mod.rs line 216).
Reads that textually follow the `self.V[0xF] = …` write see the updated register
file, which is why the arms sequence two `set`s. -/
def exec8 (s : Chip8) (instruction : Nat) : Option Chip8 :=
  let x := instruction &&& (0x0F00 >>> 8)
  let y := instruction &&& (0x00F0 >>> 4)
  let low := instruction &&& 0x000F
  let inner : Option (List Nat) :=
    if low = 0x0000 then
      some (s.V.set x (s.V.getD y 0))
    else if low = 0x0001 then
      some (s.V.set x (s.V.getD x 0 ||| s.V.getD y 0))
    else if low = 0x0002 then
      some (s.V.set x (s.V.getD x 0 &&& s.V.getD y 0))
    else if low = 0x0003 then
      some (s.V.set x (s.V.getD x 0 ^^^ s.V.getD y 0))
    else if low = 0x0004 then
      let sum := s.V.getD x 0 + s.V.getD y 0
      let V1 := s.V.set 0xF (if sum > 0xFF then 1 else 0)
      some (V1.set x (wrap8 sum))
    else if low = 0x0005 then
      let V1 := s.V.set 0xF (if s.V.getD x 0 > s.V.getD y 0 then 1 else 0)
      some (V1.set x (wrappingSub8 (V1.getD x 0) (V1.getD y 0)))
    else if low = 0x0006 then
      let V1 := s.V.set 0xF (s.V.getD x 0 &&& 0x1)
      some (V1.set x (V1.getD x 0 / 2))
    else if low = 0x0007 then
      let V1 := s.V.set 0xF (if s.V.getD y 0 > s.V.getD x 0 then 1 else 0)
      some (V1.set x (wrappingSub8 (V1.getD y 0) (V1.getD x 0)))
    else if low = 0x000E then
      let V1 := s.V.set 0xF (s.V.getD x 0 >>> 7)
      if 2 * V1.getD x 0 > 0xFF then none
      else some (V1.set x (2 * V1.getD x 0))
    else
      some s.V
  inner.map (fun V1 => { s with V := V1.set x (V1.getD y 0) })

/-- One sprite row of DRW: `for j in 0..8`, with the source's `bit == 1` test, its
collision/turn-on branches, and the right-edge break placed after the draw. The
argument list carries the remaining `j` values. -/
def drawBits (byte y : Nat) :
    List Nat → Nat → List (List Nat) → Nat → Nat × List (List Nat) × Nat
  | [], x, d, vf => (x, d, vf)
  | j :: js, x, d, vf =>
    let bit := byte &&& (0x80 >>> j)
    let step : List (List Nat) × Nat :=
      if bit = 1 ∧ getPix d x y ≠ 0 then (setPix d x y 0, 1)
      else if bit = 1 ∧ getPix d x y = 0 then (setPix d x y 1, vf)
      else (d, vf)
    if x = WIDTH - 1 then (x, step.1, step.2)
    else drawBits byte y js (x + 1) step.1 step.2

/-- The row loop of DRW (`for row in 0..n`). `x` is deliberately carried across rows
exactly as in the source (it is never reset to the origin column). A memory read
out of bounds aborts. -/
def drawRows (mem : List Nat) (I : Nat) :
    List Nat → Nat → Nat → List (List Nat) → Nat → Option (List (List Nat) × Nat)
  | [], _, _, d, vf => some (d, vf)
  | row :: rows, x, y, d, vf =>
    (memRead mem (I + row)).bind (fun byte =>
      let r := drawBits byte y [0, 1, 2, 3, 4, 5, 6, 7] x d vf
      let y1 := y + 1
      if y1 ≥ HEIGHT then some (r.2.1, r.2.2)
      else drawRows mem I rows r.1 y1 r.2.1 r.2.2)

/-- The `0xD000` (DRW) arm of `Chip8::execute`. Both coordinate register indices are
`instruction & (0x0F00 >> 8)` resp. `instruction & (0x00F0 >> 4)`, i.e. the low
nibble, per the Rust parse. -/
def execDRW (s : Chip8) (instruction : Nat) : Option Chip8 :=
  let x_reg := instruction &&& (0x0F00 >>> 8)
  let y_reg := instruction &&& (0x00F0 >>> 4)
  let x := s.V.getD x_reg 0 % WIDTH
  let y := s.V.getD y_reg 0 % HEIGHT
  let V1 := s.V.set 0xF 0
  let n := instruction &&& 0x000F
  (drawRows s.memory s.I (List.range n) x y s.display 0).map
    (fun r => { s with display := r.1, V := V1.set 0xF r.2 })

/-- The `0xE000` arm of `Chip8::execute` (SKP/SKNP). -/
def execE (s : Chip8) (instruction : Nat) : Option Chip8 :=
  let x := instruction &&& (0x0F00 >>> 8)
  let key := s.V.getD x 0
  if instruction &&& 0x00FF = 0x009E then
    if s.keypad.is_pressed (keyOfByte key) then pcSkip s else some s
  else if instruction &&& 0x00FF = 0x00A1 then
    if !s.keypad.is_pressed (keyOfByte key) then pcSkip s else some s
  else
    some s

/-- The `0xF000` arm of `Chip8::execute`. The Fx0A arm is Modelled from the spec:
`KeyPad::wait_for_key_press` is called at mod.rs line 306 but is not under src/;
spec §4.1 says Fx0A consults the release queue (`get_first_key_released`): if a
released key exists its value is loaded into the selected register, otherwise `pc`
is rewound by 2. The register index is the one computed by the present mod.rs code,
`instruction & (0x0F00 >> 8)` = the low nibble. -/
def execF (s : Chip8) (instruction : Nat) : Option Chip8 :=
  let x := instruction &&& (0x0F00 >>> 8)
  let low := instruction &&& 0x00FF
  if low = 0x0007 then
    some { s with V := s.V.set x s.delay_timer }
  else if low = 0x000A then
    match s.keypad.get_first_key_released with
    | some k => some { s with V := s.V.set x k }
    | none => if s.pc < 2 then none else some { s with pc := s.pc - 2 }
  else if low = 0x0015 then
    some { s with delay_timer := s.V.getD x 0 }
  else if low = 0x0018 then
    some { s with sound_timer := s.V.getD x 0 }
  else if low = 0x001E then
    if s.I + s.V.getD x 0 > 0xFFFF then none
    else some { s with I := s.I + s.V.getD x 0 }
  else if low = 0x0029 then
    some { s with I := get_sprite_addr (s.V.getD x 0) }
  else if low = 0x0033 then
    let val := s.V.getD x 0
    (memWrite s.memory s.I (val / 100)).bind (fun m1 =>
      (memWrite m1 (s.I + 1) ((val / 10) % 10)).bind (fun m2 =>
        (memWrite m2 (s.I + 2) (val % 10)).map (fun m3 => { s with memory := m3 })))
  else if low = 0x0055 then
    (writeLoop s.I s.V s.memory (List.range (x + 1))).map
      (fun m1 => { s with memory := m1 })
  else if low = 0x0065 then
    (readLoop s.memory s.I s.V (List.range (x + 1))).map
      (fun v1 => { s with V := v1 })
  else
    some s

/-- `Chip8::execute` (src/chip8/mod.rs lines 83–354). `instruction` is the fetched
16-bit word; `rand` stands for the `rand::random::<u8>()` draw of opcode Cxnn.
`none` models an abort (debug-profile overflow of `sp -= 1`/`sp += 1`/`pc += 2`/
`I += Vx`/`Vx *= 2`, or an out-of-bounds index into the 16-entry stack or the
4096-byte memory). Unknown instructions only log and leave the state unchanged. -/
def Chip8.execute (s : Chip8) (instruction : Nat) (rand : Nat) : Option Chip8 :=
  let opcode := instruction &&& 0xF000
  if opcode = 0x0000 then
    if instruction &&& 0x00FF = 0x00E0 then
      some { s with display := clearDisplay s.display }
    else if instruction &&& 0x00FF = 0x00EE then
      (memRead s.stack s.sp).bind (fun ret =>
        if s.sp = 0 then none
        else some { s with pc := ret, sp := s.sp - 1 })
    else
      some s
  else if opcode = 0x1000 then
    some { s with pc := instruction &&& 0x0FFF }
  else if opcode = 0x2000 then
    if s.sp + 1 > 0xFF then none
    else
      (memWrite s.stack (s.sp + 1) s.pc).map (fun st =>
        { s with sp := s.sp + 1, stack := st, pc := instruction &&& 0x0FFF })
  else if opcode = 0x3000 then
    let x := instruction &&& (0x0F00 >>> 8)
    if s.V.getD x 0 = instruction &&& 0x00FF then pcSkip s else some s
  else if opcode = 0x4000 then
    let x := instruction &&& (0x0F00 >>> 8)
    if s.V.getD x 0 ≠ instruction &&& 0x00FF then pcSkip s else some s
  else if opcode = 0x5000 then
    let x := instruction &&& (0x0F00 >>> 8)
    let y := instruction &&& (0x00F0 >>> 4)
    if s.V.getD x 0 = s.V.getD y 0 then pcSkip s else some s
  else if opcode = 0x6000 then
    let x := instruction &&& (0x0F00 >>> 8)
    some { s with V := s.V.set x (instruction &&& 0x00FF) }
  else if opcode = 0x7000 then
    let x := instruction &&& (0x0F00 >>> 8)
    some { s with V := s.V.set x (wrap8 (s.V.getD x 0 + (instruction &&& 0x00FF))) }
  else if opcode = 0x8000 then
    exec8 s instruction
  else if opcode = 0x9000 then
    let x := instruction &&& (0x0F00 >>> 8)
    let y := instruction &&& (0x00F0 >>> 4)
    if x ≠ y then pcSkip s else some s
  else if opcode = 0xA000 then
    some { s with I := instruction &&& 0x0FFF }
  else if opcode = 0xB000 then
    some { s with pc := (instruction &&& 0x0FFF) + s.V.getD 0 0 }
  else if opcode = 0xC000 then
    let x := instruction &&& (0x0F00 >>> 8)
    some { s with V := s.V.set x (rand &&& (instruction &&& 0x00FF)) }
  else if opcode = 0xD000 then
    execDRW s instruction
  else if opcode = 0xE000 then
    execE s instruction
  else if opcode = 0xF000 then
    execF s instruction
  else
    some s

/-- `Chip8::fetch`: big-endian word at `memory[pc..pc+2]`, then `pc += 2`. An
out-of-bounds memory read aborts. -/
def Chip8.fetch (s : Chip8) : Option (Nat × Chip8) :=
  (memRead s.memory s.pc).bind (fun hi =>
    (memRead s.memory (s.pc + 1)).map (fun lo =>
      ((hi <<< 8) ||| lo, { s with pc := s.pc + 2 })))

/-- Modelled from the spec: `Chip8::tick` is called by main.rs but is not under
src/; spec §2/§4.2 say a tick is fetch followed by execute, and that the keypad
release queue is drained exactly once per tick, after instruction execution. -/
def Chip8.tick (s : Chip8) (rand : Nat) : Option Chip8 :=
  (s.fetch).bind (fun fr =>
    (fr.2.execute fr.1 rand).map
      (fun s2 => { s2 with keypad := s2.keypad.clear_keys_released }))

/-- `MAX_ROM_SIZE = MEMORY_SIZE - INITIAL_PC` (mod.rs line 17). -/
def MAX_ROM_SIZE : Nat := 4096 - 0x200

/-- `Chip8::load_rom` (mod.rs lines 59–74), with the successfully read file
contents passed as the byte list `rom` (the length check against `MAX_ROM_SIZE`
happens before the file is opened, read, or copied). On success the bytes are
copied into `memory[0x200 .. 0x200 + rom.length]`. -/
def load_rom (mem rom : List Nat) : Except String (List Nat) :=
  if rom.length > MAX_ROM_SIZE then Except.error "ROM too large"
  else Except.ok (mem.take 0x200 ++ rom ++ mem.drop (0x200 + rom.length))

/-- Memory of a fresh machine before font loading: 4096 zero bytes. -/
def initMemory : List Nat := List.replicate 4096 0

/-- An all-off 64×32 display. -/
def zeroDisplay : List (List Nat) := List.replicate 64 (List.replicate 32 0)

/-- A concrete machine state: zeroed registers and memory, `pc = 0x200`. -/
def zeroState : Chip8 :=
  { memory := initMemory, display := zeroDisplay, pc := 0x200, I := 0,
    stack := List.replicate 16 0, sp := 0, delay_timer := 0, sound_timer := 0,
    V := List.replicate 16 0, keypad := KeyPad.new }

/-- `zeroState` with V0 = 0xFF and V1 = 0x01. -/
def c2State : Chip8 :=
  { zeroState with V := ((List.replicate 16 0).set 0 0xFF).set 1 0x01 }

/-- `zeroState` with V5 = 7 and V7 = 3. -/
def c4State : Chip8 :=
  { zeroState with V := ((List.replicate 16 0).set 5 7).set 7 3 }

/-- `zeroState` with V1 = 1 and V2 = 2. -/
def c5State : Chip8 :=
  { zeroState with V := ((List.replicate 16 0).set 1 1).set 2 2 }

/-- `zeroState` with `I = 0x300` and the single sprite byte 0xFF at 0x300. -/
def c6State : Chip8 :=
  { zeroState with I := 0x300, memory := initMemory.set 0x300 0xFF }

/-- Memory holding the single instruction 0xF30A (LD V3, K) at 0x200. -/
def c7Mem : List Nat := (initMemory.set 0x200 0xF3).set 0x201 0x0A

/-- Machine about to execute Fx0A with an empty release queue. -/
def c7Wait : Chip8 := { zeroState with memory := c7Mem }

/-- Machine about to execute Fx0A with key 5 in the release queue. -/
def c7Key : Chip8 :=
  { c7Wait with keypad := { keys := List.replicate 16 KeyState.Up, keys_released := [5] } }

/-- `zeroState` with `sp = 15` (15 calls deep). -/
def sp15State : Chip8 := { zeroState with sp := 15 }

theorem set_getD_self (l : List Nat) (i : Nat) : l.set i (l.getD i 0) = l := by
  induction l generalizing i with
  | nil => rfl
  | cons a t ih =>
    cases i with
    | zero => simp [List.set, List.getD]
    | succ n => simpa [List.set, List.getD] using ih n

theorem getD_set_self (l : List Nat) (i v : Nat) (h : i < l.length) :
    (l.set i v).getD i 0 = v := by
  rw [List.getD_eq_getElem _ _ (by simpa using h)]
  exact List.getElem_set_self _

theorem getD_take_eq (l : List Nat) (k i : Nat) (hik : i < k) (hil : i < l.length) :
    (l.take k).getD i 0 = l.getD i 0 := by
  rw [List.getD_eq_getElem _ _ (by simp; omega), List.getD_eq_getElem _ _ hil]
  exact List.getElem_take ..

/-- C1: the claim says decode extracts `x` from bits 8..11 and `y` from bits 4..7,
so `0x6A01` (LD VA, 0x01) must load 0x01 into V10. The code computes
`instruction & (0x0F00 >> 8)` = the LOW nibble, so it loadsV1 instead: evaluating
`Chip8.execute` at `0x6A01` leaves V10 = 0 and sets V1 = 1. -/
theorem C1_decode_low_nibble_eval :
    (Chip8.execute zeroState 0x6A01 0).map (fun t => (t.V.getD 10 0, t.V.getD 1 0)) =
      some (0, 1) := by
  decide

/-- C2: the claim says `0x8014` (ADD V0, V1) with V0 = 0xFF, V1 = 0x01 yields
V0 = 0x00 and VF = 1. The code's operand indices are both the low nibble (4), so it
computes V4 + V4 = 0 with VF = 0 and leaves V0 = 0xFF untouched. -/
theorem C2_add_eval :
    (Chip8.execute c2State 0x8014 0).map
        (fun t => (t.V.getD 0 0, t.V.getD 0xF 0, t.V.getD 4 0)) =
      some (0xFF, 0, 0) := by
  decide

/-- C4: the claim says SUB/SUBN set VF = 1 when no borrow occurs, in particular
when the two register values are equal. In `0x8555` both operands are V5 (= 7) and
in `0x8777` both are V7 (= 3), yet the code's strict `>` comparison produces
VF = 0 in both, where the claim requires VF = 1. -/
theorem C4_sub_flag_eval :
    (Chip8.execute c4State 0x8555 0).map (fun t => (t.V.getD 0xF 0, t.V.getD 5 0)) =
        some (0, 0) ∧
      (Chip8.execute c4State 0x8777 0).map (fun t => (t.V.getD 0xF 0, t.V.getD 7 0)) =
        some (0, 0) := by
  decide

/-- C5: the claim says `0x9120` (SNE V1, V2) skips exactly when the register values
differ and `0x5120` (SE V1, V2) skips exactly when they are equal. With V1 = 1 and
V2 = 2 the code does the opposite of both: `0x9120` leaves the state unchanged
(it compares the two miscomputed operand indices, both 0) and `0x5120` skips
(it compares V0 with V0). -/
theorem C5_skip_eval :
    (Chip8.execute c5State 0x9120 0).map (fun t => (t.pc, t.V)) =
        some (0x200, c5State.V) ∧
      (Chip8.execute c5State 0x5120 0).map Chip8.pc = some (0x200 + 2) ∧
      c5State.V.getD 1 0 ≠ c5State.V.getD 2 0 := by
  decide

/-- C6: the claim says drawing the one-row sprite 0xFF turns all 8 pixels of the
row on (VF = 0) and a second identical draw turns all 8 back off (VF = 1). The
code's `bit == 1` test only matches the least-significant sprite bit, so the first
draw of `0xD001` from `c6State` lights only the pixel at x = 7 (pixel (0,0) stays
off), and the second draw merely toggles that one pixel off with VF = 1. -/
theorem C6_drw_eval :
    (Chip8.execute c6State 0xD001 0).map
        (fun t => (getPix t.display 0 0, getPix t.display 7 0, t.V.getD 0xF 0)) =
      some (0, 1, 0) ∧
      ((Chip8.execute c6State 0xD001 0).bind (fun t => Chip8.execute t 0xD001 0)).map
        (fun t => (getPix t.display 7 0, t.V.getD 0xF 0)) =
      some (0, 1) := by
  decide

/-- C7: with `0xF30A` (LD V3, K) at pc = 0x200 and an empty release queue, a tick
rewinds pc to 0x200 with all registers unchanged (the spec-modelled wait
behavior); once key 5 is in the release queue, a tick advances pc to 0x202 but
stores the key into V10 — the low nibble of the instruction word — leaving V3 = 0,
where the claim requires V3 = 5. The tick also drains the release queue. -/
theorem C7_wait_key_eval :
    (Chip8.tick c7Wait 0).map (fun t => (t.pc, t.V)) =
        some (0x200, List.replicate 16 0) ∧
      (Chip8.tick c7Key 0).map
        (fun t => (t.pc, t.V.getD 3 0, t.V.getD 10 0, t.keypad.keys_released)) =
        some (0x202, 0, 5, ([] : List Nat)) := by
  decide

/-- C3 counterexample: `0x01EE` is not in the instruction table (it is a `0x0**`
word other than 00E0/00EE), yet executing it from `zeroState` is not a state-
preserving no-op: the code matches only the low byte, treats it as RET, and aborts
on the `sp -= 1` underflow (sp = 0), contradicting both "machine state unchanged"
and "does not panic". -/
theorem C3_counterexample_01EE :
    Chip8.execute zeroState 0x01EE 0 = none := by
  decide

/-- C9 counterexample: `sp15State` has stack depth 15, strictly below 16, but
executing CALL (`0x2300`) from it aborts on the out-of-bounds write to
`stack[16]`, so no CALL-then-RET round trip exists from this state. -/
theorem C9_counterexample_sp15 :
    sp15State.sp < 16 ∧ Chip8.execute sp15State 0x2300 0 = none := by
  decide

theorem set_getElem?_getD_self (l : List Nat) (i : Nat) :
    l.set i (l[i]?.getD 0) = l := by
  have := set_getD_self l i
  simpa [List.getD] using this

theorem get?_set_self (l : List Nat) (i v : Nat) (h : i < l.length) :
    (l.set i v).get? i = some v := by
  rw [List.get?_eq_get (by simpa using h)]
  simp

/-- C3 (amended): for every instruction word whose opcode/operand combination the
code's dispatch treats as unknown — an 8xy* word whose low nibble is outside
{0..7, E}, a 0x0** word whose LOW BYTE differs from 0xE0 and 0xEE, an Ex** word
whose low byte is neither 9E nor A1, or an Fx** word whose low byte is none of
07/0A/15/18/1E/29/33/55/65 — `Chip8.execute` returns the state unchanged and does
not abort. (The original claim also counted 0x0** words whose low byte IS 0xE0 or
0xEE, such as 0x01E0/0x01EE, as unknown; the code matches only the low byte and
executes CLS resp. RET for those, see the counterexample.) -/
theorem C3_unknown_noop (s : Chip8) (w rand : Nat)
    (h : (w &&& 0xF000 = 0x0000 ∧ w &&& 0x00FF ≠ 0x00E0 ∧ w &&& 0x00FF ≠ 0x00EE) ∨
         (w &&& 0xF000 = 0x8000 ∧ w &&& 0x000F ≠ 0x0000 ∧ w &&& 0x000F ≠ 0x0001 ∧
           w &&& 0x000F ≠ 0x0002 ∧ w &&& 0x000F ≠ 0x0003 ∧ w &&& 0x000F ≠ 0x0004 ∧
           w &&& 0x000F ≠ 0x0005 ∧ w &&& 0x000F ≠ 0x0006 ∧ w &&& 0x000F ≠ 0x0007 ∧
           w &&& 0x000F ≠ 0x000E) ∨
         (w &&& 0xF000 = 0xE000 ∧ w &&& 0x00FF ≠ 0x009E ∧ w &&& 0x00FF ≠ 0x00A1) ∨
         (w &&& 0xF000 = 0xF000 ∧ w &&& 0x00FF ≠ 0x0007 ∧ w &&& 0x00FF ≠ 0x000A ∧
           w &&& 0x00FF ≠ 0x0015 ∧ w &&& 0x00FF ≠ 0x0018 ∧ w &&& 0x00FF ≠ 0x001E ∧
           w &&& 0x00FF ≠ 0x0029 ∧ w &&& 0x00FF ≠ 0x0033 ∧ w &&& 0x00FF ≠ 0x0055 ∧
           w &&& 0x00FF ≠ 0x0065)) :
    Chip8.execute s w rand = some s := by
  rcases h with ⟨h0, h1, h2⟩ | ⟨h0, h1, h2, h3, h4, h5, h6, h7, h8, h9⟩ |
    ⟨h0, h1, h2⟩ | ⟨h0, h1, h2, h3, h4, h5, h6, h7, h8, h9⟩
  · simp [Chip8.execute, h0, h1, h2]
  · simp [Chip8.execute, exec8, h0, h1, h2, h3, h4, h5, h6, h7, h8, h9, set_getElem?_getD_self]
  · simp [Chip8.execute, execE, h0, h1, h2]
  · simp [Chip8.execute, execF, h0, h1, h2, h3, h4, h5, h6, h7, h8, h9]

/-- C3 witness: a concrete unknown word (0x0123) really is a state-preserving
no-op. -/
theorem C3_unknown_noop_witness :
    (0x0123 : Nat) &&& 0xF000 = 0x0000 ∧
      Chip8.execute zeroState 0x0123 0 = some zeroState :=
  ⟨by decide, C3_unknown_noop zeroState 0x0123 0 (Or.inl (by decide))⟩

/-- C8: `load_rom` rejects any image longer than 3584 bytes with the "ROM too
large" error and no memory mutation; a successfully read image of at most 3584
bytes is copied to addresses 0x200.., leaving every address below 0x200 (and the
memory length) untouched. -/
theorem C8_load_rom_spec (mem rom : List Nat) (hmem : mem.length = 4096) :
    (rom.length > 3584 → load_rom mem rom = Except.error "ROM too large") ∧
    (rom.length ≤ 3584 →
      ∃ mem2, load_rom mem rom = Except.ok mem2 ∧ mem2.length = 4096 ∧
        (∀ a, a < 0x200 → mem2.getD a 0 = mem.getD a 0) ∧
        (∀ i, i < rom.length → mem2.getD (0x200 + i) 0 = rom.getD i 0)) := by
  have ht : (mem.take 0x200).length = 0x200 := by
    rw [List.length_take]; omega
  constructor
  · intro h
    rw [load_rom, if_pos]
    show rom.length > MAX_ROM_SIZE
    simp only [MAX_ROM_SIZE]
    omega
  · intro h
    have hno : ¬ (rom.length > MAX_ROM_SIZE) := by
      simp only [MAX_ROM_SIZE]
      omega
    refine ⟨_, by rw [load_rom, if_neg hno], ?_, ?_, ?_⟩
    · simp only [List.length_append, ht, List.length_drop, hmem]
      omega
    · intro a ha
      rw [List.getD_append _ _ _ _ (by simp only [List.length_append, ht]; omega)]
      rw [List.getD_append _ _ _ _ (by omega)]
      exact getD_take_eq mem 0x200 a ha (by omega)
    · intro i hi
      rw [List.getD_append _ _ _ _ (by simp only [List.length_append, ht]; omega)]
      rw [List.getD_append_right _ _ _ _ (by rw [ht]; omega)]
      rw [ht]
      simp

/-- C8 witness: a 3585-byte image is rejected with the exact error, and a 3-byte
image lands at 0x200 with address 0 untouched. -/
theorem C8_load_rom_witness :
    load_rom initMemory (List.replicate 3585 7) = Except.error "ROM too large" ∧
      ∃ mem2, load_rom initMemory [1, 2, 3] = Except.ok mem2 ∧
        mem2.getD 0x200 0 = 1 ∧ mem2.getD 0 0 = initMemory.getD 0 0 := by
  have hmem : initMemory.length = 4096 := by rw [initMemory, List.length_replicate]
  have hbig : (List.replicate 3585 (7 : Nat)).length > 3584 := by
    rw [List.length_replicate]
    omega
  refine ⟨(C8_load_rom_spec initMemory (List.replicate 3585 7) hmem).1 hbig, ?_⟩
  obtain ⟨m2, hok, hlen, hlow, hcopy⟩ :=
    (C8_load_rom_spec initMemory [1, 2, 3] hmem).2 (by decide)
  exact ⟨m2, hok, by simpa using hcopy 0 (by decide), hlow 0 (by norm_num)⟩

/-- C9 (amended): from any state whose stack depth `sp` is strictly below 15 (not
16: at `sp = 15` the CALL aborts on the out-of-bounds write to `stack[16]`, see the
counterexample), executing CALL (2nnn) and then RET (00EE) succeeds and restores
`pc` to its value at the moment the CALL executed and `sp` to its pre-CALL
value. -/
theorem C9_call_ret_roundtrip (s : Chip8) (w rand : Nat)
    (hw : w &&& 0xF000 = 0x2000) (hsp : s.sp < 15) (hst : s.stack.length = 16) :
    ∃ s1 s2, Chip8.execute s w rand = some s1 ∧
      Chip8.execute s1 0x00EE rand = some s2 ∧ s2.pc = s.pc ∧ s2.sp = s.sp := by
  have hA : ¬ (s.sp + 1 > 0xFF) := by omega
  have hB : s.stack.get? (s.sp + 1) = some (s.stack.get ⟨s.sp + 1, by omega⟩) :=
    List.get?_eq_get _
  let s1 : Chip8 := { s with sp := s.sp + 1, stack := s.stack.set (s.sp + 1) s.pc, pc := w &&& 0x0FFF }
  let s2 : Chip8 := { s with stack := s.stack.set (s.sp + 1) s.pc }
  refine ⟨s1, s2, ?_, ?_, rfl, rfl⟩
  · simp [Chip8.execute, hw, hA, memWrite, hB]
    exact ⟨_, List.getElem?_eq_getElem (by omega)⟩
  · have hE1 : (0x00EE : Nat) &&& 0xF000 = 0x0000 := by decide
    have hE2 : (0x00EE : Nat) &&& 0x00FF = 0x00EE := by decide
    have hE3 : (0x00EE : Nat) &&& 0x00FF ≠ 0x00E0 := by decide
    have hC : ((s.stack.set (s.sp + 1) s.pc))[s.sp + 1]? = some s.pc := by
      rw [← List.get?_eq_getElem?]
      exact get?_set_self _ _ _ (by omega)
    have hD : ¬ (s.sp + 1 = 0) := by omega
    simp [Chip8.execute, memRead, hE1, hE2, hE3, hC, hD]

/-- C9 witness: the round trip at a concrete state (`zeroState`, CALL 0x300 then
RET). -/
theorem C9_call_ret_witness :
    zeroState.sp < 15 ∧
      ∃ s1 s2, Chip8.execute zeroState 0x2300 0 = some s1 ∧
        Chip8.execute s1 0x00EE 0 = some s2 ∧
        s2.pc = zeroState.pc ∧ s2.sp = zeroState.sp :=
  ⟨by decide,
   C9_call_ret_roundtrip zeroState 0x2300 0 (by decide) (by decide) (by decide)⟩

/-- C10: `Chip8.execute` is not total at the stack boundary: RET with `sp = 0`
aborts (the `sp -= 1` underflow), and CALL with `sp = 15` aborts (the write to
`stack[16]`, out of bounds for the 16-entry stack); neither produces a wrapped
value or an error result. -/
theorem C10_stack_boundary (s : Chip8) (w rand : Nat) :
    (s.sp = 0 → Chip8.execute s 0x00EE rand = none) ∧
    (w &&& 0xF000 = 0x2000 → s.sp = 15 → s.stack.length = 16 →
      Chip8.execute s w rand = none) := by
  constructor
  · intro hsp
    have hA : (0x00EE : Nat) &&& 0xF000 = 0x0000 := by decide
    have hB : (0x00EE : Nat) &&& 0x00FF = 0x00EE := by decide
    have hC : (0x00EE : Nat) &&& 0x00FF ≠ 0x00E0 := by decide
    simp only [Chip8.execute, hA, hB, hC, memRead, hsp]
    cases s.stack.get? 0 <;> simp
  · intro hw h15 hlen
    have hA : ¬ (s.sp + 1 > 0xFF) := by omega
    have hB : s.stack.get? (s.sp + 1) = none := by
      rw [List.get?_eq_none]
      omega
    simp [Chip8.execute, hw, hA, memWrite, hB]
    omega

/-- C10 witness: RET from `zeroState` (sp = 0) and CALL from `sp15State` (sp = 15)
both abort. -/
theorem C10_stack_boundary_witness :
    Chip8.execute zeroState 0x00EE 0 = none ∧
      Chip8.execute sp15State 0x2300 0 = none :=
  ⟨(C10_stack_boundary zeroState 0x2300 0).1 rfl,
   (C10_stack_boundary sp15State 0x2300 0).2 (by decide) rfl (by decide)⟩
